import Mathlib

/-!
Shallow embedding of the Linux framebuffer backend in src/backend/fbdev.c
(project mado).  Pure computations (pixel conversion, span writing, format
validation, mapping-length arithmetic) are translated directly; the stateful
parts (VT switch state machine, scheduler tick, init/exit lifecycles) are
translated into explicit state-passing functions over small state records,
with ghost counters (transitions, flushes, munmaps) recording how often the
corresponding operations were performed.  External OS calls (ioctl, mmap,
signal) are reflected either as state fields or as emitted abstract
operations.
-/

/-! ### Pixel conversion (fbdev.c lines 51-67)

The C macros convert one span of ARGB8888 pixels to the device layout.
`ARGB32_TO_RGB565_PERLINE` packs each 32-bit pixel into RGB565,
`ARGB32_TO_RGB888_PERLINE` forces an opaque top byte, and
`ARGB32_TO_ARGB32_PERLINE` is a `memcpy`.  Pixels are modelled as natural
numbers below `2 ^ 32`. -/

/-- Per-pixel body of `ARGB32_TO_RGB565_PERLINE`:
`((p & 0x00f80000) >> 8) | ((p & 0x0000fc00) >> 5) | ((p & 0x000000f8) >> 3)`. -/
def argb32_to_rgb565 (p : Nat) : Nat :=
  ((p &&& 0x00f80000) >>> 8) ||| ((p &&& 0x0000fc00) >>> 5) ||| ((p &&& 0x000000f8) >>> 3)

/-- Per-pixel body of `ARGB32_TO_RGB888_PERLINE`: `0xff000000 | p`. -/
def argb32_to_rgb888 (p : Nat) : Nat :=
  0xff000000 ||| p

/-- One span write performed by a `_twin_fbdev_put_span*` function: the byte
offset from `fb_base` at which the write starts, and the consecutive 32-bit
words stored there (the C functions declare `uint32_t *dest` for every depth,
so each destination cell is 4 bytes wide). -/
structure SpanWrite where
  off : Nat
  words : List Nat
deriving DecidableEq

/-- Body of the `FBDEV_PUT_SPAN_IMPL` macro (fbdev.c lines 69-80):
`off = sizeof(uint32_t) * left + top * line_length`, then the per-line
conversion loop stores `conv(pixels[i])` in `dest[i]` for
`0 <= i < right - left`.  Reads past the end of `pixels` are modelled with
default 0 (the caller guarantees the row holds exactly `right - left`
pixels). -/
def twin_fbdev_put_span (conv : Nat → Nat) (left top right line_length : Nat)
    (pixels : List Nat) : SpanWrite :=
  { off := 4 * left + top * line_length
    words := (List.range (right - left)).map fun i => conv (pixels.getD i 0) }

/-- `_twin_fbdev_put_span16` (`FBDEV_PUT_SPAN_IMPL(16, ARGB32_TO_RGB565_PERLINE)`). -/
def twin_fbdev_put_span16 (left top right line_length : Nat) (pixels : List Nat) : SpanWrite :=
  twin_fbdev_put_span argb32_to_rgb565 left top right line_length pixels

/-- `_twin_fbdev_put_span24` (`FBDEV_PUT_SPAN_IMPL(24, ARGB32_TO_RGB888_PERLINE)`). -/
def twin_fbdev_put_span24 (left top right line_length : Nat) (pixels : List Nat) : SpanWrite :=
  twin_fbdev_put_span argb32_to_rgb888 left top right line_length pixels

/-- `_twin_fbdev_put_span32` (`FBDEV_PUT_SPAN_IMPL(32, ARGB32_TO_ARGB32_PERLINE)`,
a plain `memcpy` of `right - left` 32-bit words). -/
def twin_fbdev_put_span32 (left top right line_length : Nat) (pixels : List Nat) : SpanWrite :=
  twin_fbdev_put_span (fun p => p) left top right line_length pixels

/-! ### Framebuffer format validation (fbdev.c lines 113-179) -/

/-- The channel-layout fields of `struct fb_var_screeninfo` that
`twin_fbdev_apply_config` examines. -/
structure FbVarScreeninfo where
  bits_per_pixel : Nat
  red_offset : Nat
  red_length : Nat
  green_offset : Nat
  green_length : Nat
  blue_offset : Nat
  blue_length : Nat
deriving DecidableEq

/-- `twin_fbdev_is_rgb565` (fbdev.c lines 113-118). -/
def twin_fbdev_is_rgb565 (v : FbVarScreeninfo) : Bool :=
  v.red_offset == 11 && v.red_length == 5 &&
  v.green_offset == 5 && v.green_length == 6 &&
  v.blue_offset == 0 && v.blue_length == 5

/-- `twin_fbdev_is_rgb888` (fbdev.c lines 120-125). -/
def twin_fbdev_is_rgb888 (v : FbVarScreeninfo) : Bool :=
  v.red_offset == 16 && v.red_length == 8 &&
  v.green_offset == 8 && v.green_length == 8 &&
  v.blue_offset == 0 && v.blue_length == 8

/-- `twin_fbdev_is_argb32` (fbdev.c lines 127-132; same channel test as
`twin_fbdev_is_rgb888`). -/
def twin_fbdev_is_argb32 (v : FbVarScreeninfo) : Bool :=
  v.red_offset == 16 && v.red_length == 8 &&
  v.green_offset == 8 && v.green_length == 8 &&
  v.blue_offset == 0 && v.blue_length == 8

/-- The format-examination `switch` of `twin_fbdev_apply_config`
(fbdev.c lines 157-179).  Returns `true` when `apply_config` proceeds past
the switch and `false` when it returns failure.  Note the `default:` arm
only logs and `break`s, so an unrecognized `bits_per_pixel` proceeds. -/
def twin_fbdev_format_check (v : FbVarScreeninfo) : Bool :=
  match v.bits_per_pixel with
  | 16 => twin_fbdev_is_rgb565 v
  | 24 => twin_fbdev_is_rgb888 v
  | 32 => twin_fbdev_is_argb32 v
  | _ => true

/-! ### Mapping length computation (fbdev.c lines 184-190)

```
off_t pgsize = getpagesize();
off_t start = (off_t) tx->fb_fix.smem_start & (pgsize - 1);
tx->fb_len = start + (size_t) tx->fb_fix.smem_len + (pgsize - 1);
tx->fb_len &= ~(pgsize - 1);
```
The machine integers are 64-bit; `~` is the 64-bit complement, modelled as
xor with `2 ^ 64 - 1`, and the sum is taken mod `2 ^ 64`. -/

/-- The value of `tx->fb_len` computed by `twin_fbdev_apply_config` from
`smem_start` (physical base), `smem_len` (raw length) and the page size. -/
def twin_fbdev_fb_len (smem_start smem_len pgsize : Nat) : Nat :=
  let start := smem_start &&& (pgsize - 1)
  let len := (start + smem_len + (pgsize - 1)) % 2 ^ 64
  len &&& ((pgsize - 1) ^^^ (2 ^ 64 - 1))

/-! ### VT switch state machine and scheduler tick (fbdev.c lines 203-256)

The mutable state a tick touches: `tx->vt_active`, whether `tx->fb_base`
differs from the `MAP_FAILED` sentinel, the process-wide flag
`vt_switch_pending`, and whether the screen reports accumulated damage.
`transitions`, `flushes` and `munmaps` are ghost counters (not in the C)
recording how many VT transitions were applied, how many times
`twin_screen_update` was invoked, and how many times `munmap` was called. -/

/-- Outcome of one `twin_fbdev_apply_config` run, as far as the mapping is
concerned: every ioctl and the mmap succeed, an ioctl fails before the mmap
is attempted (leaving `fb_base` untouched), or the mmap itself fails
(leaving `fb_base = MAP_FAILED`). -/
inductive CfgResult where
  | ok
  | failEarly
  | failMmap
deriving DecidableEq

structure FbState where
  vt_active : Bool
  fb_mapped : Bool
  pending : Bool
  damaged : Bool
  transitions : Nat
  flushes : Nat
  munmaps : Nat
deriving DecidableEq

/-- Effect of `twin_fbdev_apply_config` on the state, returning the C
boolean result of the C function (fbdev.c lines 134-201): on success `fb_base`
holds a fresh valid mapping; an early ioctl failure leaves `fb_base`
unchanged; an mmap failure stores `MAP_FAILED` in `fb_base`. -/
def twin_fbdev_apply_config : CfgResult → FbState → Bool × FbState
  | CfgResult.ok, s => (true, { s with fb_mapped := true })
  | CfgResult.failEarly, s => (false, s)
  | CfgResult.failMmap, s => (false, { s with fb_mapped := false })

/-- `twin_fbdev_switch` (fbdev.c lines 203-232).  Note the C sets
`tx->vt_active = activate` first, before knowing whether `apply_config`
succeeds; on activation it re-runs `apply_config` and, only on success,
damages the whole screen; on deactivation it unmaps guardedly and stores
the `MAP_FAILED` sentinel. -/
def twin_fbdev_switch (cfg : CfgResult) (activate : Bool) (s : FbState) : FbState :=
  let s1 := { s with vt_active := activate }
  if activate then
    match twin_fbdev_apply_config cfg s1 with
    | (true, s2) => { s2 with vt_active := true, damaged := true }
    | (false, s2) => s2
  else
    let s2 := { s1 with vt_active := false }
    if s2.fb_mapped then
      { s2 with fb_mapped := false, munmaps := s2.munmaps + 1 }
    else s2

/-- `twin_fbdev_work` (fbdev.c lines 236-250), the per-tick work function:
if the screen is damaged, update (flush) it — with no check of
`tx->vt_active` — then, if `vt_switch_pending` is set, apply one switch to
the opposite of the current state and clear the flag. -/
def twin_fbdev_work (cfg : CfgResult) (s : FbState) : FbState :=
  let s1 := if s.damaged then { s with flushes := s.flushes + 1, damaged := false } else s
  if s1.pending then
    { twin_fbdev_switch cfg (!s1.vt_active) s1 with
      pending := false, transitions := s1.transitions + 1 }
  else s1

/-- `twin_fbdev_vtswitch` (fbdev.c lines 252-256), the signal handler: its
entire effect on the modelled state is `vt_switch_pending = true`. -/
def twin_fbdev_vtswitch (s : FbState) : FbState :=
  { s with pending := true }

/-- `twin_fbdev_damaged` (fbdev.c lines 103-111), the damage-notification
hook: it flushes only when `tx->vt_active` holds and the screen is
damaged. -/
def twin_fbdev_damaged (s : FbState) : FbState :=
  if s.vt_active && s.damaged then { s with flushes := s.flushes + 1, damaged := false } else s

/-- Deliver `n` consecutive VT switch signals (no tick in between). -/
def signalBurst : Nat → FbState → FbState
  | 0, s => s
  | n + 1, s => signalBurst n (twin_fbdev_vtswitch s)

/-- Run `n` consecutive scheduler ticks. -/
def tickRun (cfg : CfgResult) : Nat → FbState → FbState
  | 0, s => s
  | n + 1, s => tickRun cfg n (twin_fbdev_work cfg s)

/-- A quiescent Foreground state: VT active, buffer mapped, no pending
switch, no damage, ghost counters zero. -/
def startFg : FbState :=
  { vt_active := true, fb_mapped := true, pending := false, damaged := false,
    transitions := 0, flushes := 0, munmaps := 0 }

/-- A burst of `n` signals delivered before any tick, followed by `n`
ticks, starting from Foreground, with `apply_config` always succeeding. -/
def burstRun (n : Nat) : FbState :=
  tickRun CfgResult.ok n (signalBurst n startFg)

/-- `n` rounds of one signal followed by one tick, starting from
Foreground, with `apply_config` always succeeding. -/
def altRun : Nat → FbState
  | 0 => startFg
  | n + 1 => twin_fbdev_work CfgResult.ok (twin_fbdev_vtswitch (altRun n))

/-- The backend state right after a successful `twin_fbdev_init`: the
private struct is `calloc`-zeroed and `tx->vt_active` is never assigned
during init, so it is still `false`, while `apply_config` has installed a
valid mapping. -/
def initDoneState : FbState :=
  { vt_active := false, fb_mapped := true, pending := false, damaged := false,
    transitions := 0, flushes := 0, munmaps := 0 }

/-! ### Teardown and VT session operations (fbdev.c lines 258-304, 396-409) -/

/-- Abstract OS-visible operations issued by the VT setup and teardown
paths. -/
inductive VtOp where
  | setConsoleGraphics
  | setConsoleText
  | saveKb
  | setKbMediumRaw
  | restoreKb
  | saveTio
  | setTio
  | restoreTio
  | munmapBuf
  | closeVt
  | closeFb
  | destroyInput
  | freeCtx
deriving DecidableEq

/-- The terminal/console operations issued by `twin_fbdev_setup_vt`
(fbdev.c lines 283-301) once the VT mode ioctls have succeeded:
`tcgetattr` saves the old termios, `KDGKBMODE` saves the old keyboard
mode, `KDSKBMODE` sets `K_MEDIUMRAW`, `tcsetattr` installs the raw
termios, and `KDSETMODE` puts the console in graphics mode. -/
def twin_fbdev_setup_vt_ops : List VtOp :=
  [VtOp.saveTio, VtOp.saveKb, VtOp.setKbMediumRaw, VtOp.setTio, VtOp.setConsoleGraphics]

/-- The fields of the backend context that `twin_fbdev_exit` could consult:
whether the VT is active and whether `fb_base` differs from the
`MAP_FAILED` sentinel.  `none` models a null `twin_context_t *`. -/
structure ExitCtx where
  vt_active : Bool
  fb_mapped : Bool
deriving DecidableEq

/-- `twin_fbdev_exit` (fbdev.c lines 396-409) as the list of operations it
issues.  A null context returns immediately.  Otherwise, unconditionally:
`twin_vt_mode(tx->vt_fd, KD_TEXT)` — modelled from the spec: `twin_vt_mode`
lives in linux_vt.h, outside this repository snapshot, and per the external-interface
list of the spec it performs the console mode set (graphics/text) —
then `munmap` (with no sentinel guard and no sentinel store afterwards),
input destruction, both `close`s and both `free`s.  No field of the context
is consulted: the operations do not depend on `vt_active` or on whether the
buffer is already unmapped. -/
def twin_fbdev_exit : Option ExitCtx → List VtOp
  | none => []
  | some _ =>
    [VtOp.setConsoleText, VtOp.munmapBuf, VtOp.destroyInput,
     VtOp.closeVt, VtOp.closeFb, VtOp.freeCtx]

/-! ### Init unwinding (fbdev.c lines 306-386) -/

/-- Success/failure of each externally-visible step of `twin_fbdev_init`. -/
structure InitEnv where
  callocCtxOk : Bool
  callocPrivOk : Bool
  openOk : Bool
  vtSetupOk : Bool
  setupVtOk : Bool
  applyCfgOk : Bool
  screenOk : Bool
  inputOk : Bool
deriving DecidableEq

/-- Which resources are still held when `twin_fbdev_init` returns. -/
structure InitRes where
  ctxAlloc : Bool
  privAlloc : Bool
  fbOpen : Bool
  vtOpen : Bool
  fbMapped : Bool
  screenLive : Bool
  inputLive : Bool
deriving DecidableEq

/-- No resources held. -/
def noRes : InitRes :=
  { ctxAlloc := false, privAlloc := false, fbOpen := false, vtOpen := false,
    fbMapped := false, screenLive := false, inputLive := false }

/-- `twin_fbdev_init` (fbdev.c lines 306-386): the boolean result records
whether a non-null context was returned, paired with the resources still
held at return.  The translation follows the C control flow: the second
`calloc` failure returns NULL directly without freeing `ctx`; `open`,
`twin_vt_setup`, `twin_fbdev_setup_vt` and `twin_fbdev_apply_config`
failures take the `bail*` goto chain (close/ free in reverse order);
the result of `twin_screen_create` is not checked; an input-creation failure
takes `bail_screen`, which destroys the screen and closes/frees but never
unmaps the framebuffer mapping. -/
def twin_fbdev_init (e : InitEnv) : Bool × InitRes :=
  if !e.callocCtxOk then (false, noRes)
  else
    let r0 : InitRes := { noRes with ctxAlloc := true }
    if !e.callocPrivOk then (false, r0)
    else
      let r1 := { r0 with privAlloc := true }
      if !e.openOk then (false, { r1 with privAlloc := false, ctxAlloc := false })
      else
        let r2 := { r1 with fbOpen := true }
        if !e.vtSetupOk then
          (false, { r2 with fbOpen := false, privAlloc := false, ctxAlloc := false })
        else
          let r3 := { r2 with vtOpen := true }
          if !e.setupVtOk then
            (false, { r3 with vtOpen := false, fbOpen := false, privAlloc := false, ctxAlloc := false })
          else if !e.applyCfgOk then
            (false, { r3 with vtOpen := false, fbOpen := false, privAlloc := false, ctxAlloc := false })
          else
            let r4 := { r3 with fbMapped := true, screenLive := e.screenOk }
            if !e.inputOk then
              (false, { r4 with screenLive := false, vtOpen := false, fbOpen := false, privAlloc := false, ctxAlloc := false })
            else
              (true, { r4 with inputLive := true })

/-- A Background state with accumulated damage and no mapped buffer (the
state reached after a release switch while clients keep drawing). -/
def bgDamagedState : FbState :=
  { vt_active := false, fb_mapped := false, pending := false, damaged := true,
    transitions := 0, flushes := 0, munmaps := 0 }

/-- The state after: start Foreground, one release signal and tick
(successful), then one acquire signal and a tick whose `apply_config`
fails in an early ioctl. -/
def failedReacquireState : FbState :=
  twin_fbdev_work CfgResult.failEarly
    (twin_fbdev_vtswitch (twin_fbdev_work CfgResult.ok (twin_fbdev_vtswitch startFg)))

/-- Every init step succeeds except the second `calloc` (the private
state). -/
def envPrivCallocFails : InitEnv :=
  { callocCtxOk := true, callocPrivOk := false, openOk := true, vtSetupOk := true,
    setupVtOk := true, applyCfgOk := true, screenOk := true, inputOk := true }

/-- Every init step succeeds except `twin_linux_input_create`. -/
def envInputCreateFails : InitEnv :=
  { callocCtxOk := true, callocPrivOk := true, openOk := true, vtSetupOk := true,
    setupVtOk := true, applyCfgOk := true, screenOk := true, inputOk := false }

/-- Every init step succeeds except `twin_screen_create`. -/
def envScreenCreateFails : InitEnv :=
  { callocCtxOk := true, callocPrivOk := true, openOk := true, vtSetupOk := true,
    setupVtOk := true, applyCfgOk := true, screenOk := false, inputOk := true }

/-! ### Helper lemmas -/

/-- Looping `i` from `0` to `l.length` and applying `f` to `l[i]` is mapping
`f` over `l`. -/
theorem range_length_map_getD (f : Nat → Nat) (l : List Nat) :
    (List.range l.length).map (fun i => f (l.getD i 0)) = l.map f := by
  induction l with
  | nil => rfl
  | cons a t ih =>
    rw [List.length_cons, List.range_succ_eq_map, List.map_cons, List.map_map]
    have hfun : ((fun i => f ((a :: t).getD i 0)) ∘ Nat.succ) = fun i => f (t.getD i 0) := by
      funext i
      simp [Function.comp, List.getD_cons_succ]
    rw [List.getD_cons_zero, hfun, ih, List.map_cons]

/-! ### Theorems for the claims -/

/-- Claim C2 (code bug): the format switch in `twin_fbdev_apply_config`
accepts exactly the three documented channel layouts at 16, 24 and 32 bpp
and rejects wrong offsets at those depths, but an unrecognized
`bits_per_pixel` (here 8) falls through the `default:` arm — which only
logs — and validation proceeds instead of failing. -/
theorem claim_C2_format_gate_fallthrough :
    twin_fbdev_format_check ⟨16, 11, 5, 5, 6, 0, 5⟩ = true ∧
    twin_fbdev_format_check ⟨24, 16, 8, 8, 8, 0, 8⟩ = true ∧
    twin_fbdev_format_check ⟨32, 16, 8, 8, 8, 0, 8⟩ = true ∧
    twin_fbdev_format_check ⟨16, 16, 8, 8, 8, 0, 8⟩ = false ∧
    twin_fbdev_format_check ⟨24, 11, 5, 5, 6, 0, 5⟩ = false ∧
    twin_fbdev_format_check ⟨32, 11, 5, 5, 6, 0, 5⟩ = false ∧
    twin_fbdev_format_check ⟨8, 0, 0, 0, 0, 0, 0⟩ = true := by
  decide

/-- Claim C3 (code bug): a scheduler tick taken in Background with
accumulated damage still performs the flush — `twin_fbdev_work` updates the
screen whenever it is damaged, with no `vt_active` check — while the
damage-notification hook `twin_fbdev_damaged` does guard on `vt_active` and
correctly suppresses the flush in the very same state. -/
theorem claim_C3_background_tick_flushes :
    bgDamagedState.vt_active = false ∧ bgDamagedState.damaged = true ∧
    bgDamagedState.fb_mapped = false ∧
    (twin_fbdev_work CfgResult.ok bgDamagedState).flushes = 1 ∧
    twin_fbdev_damaged bgDamagedState = bgDamagedState := by
  decide

/-- Claim C5 (code bug): the pointer-iff-Foreground invariant is broken on
both sides.  After a release switch followed by a re-acquire whose
`apply_config` fails, `twin_fbdev_switch` has already executed
`tx->vt_active = activate`, so the state is Foreground with the buffer
unmapped; and right after a successful init, `tx->vt_active` (never
assigned during init, `calloc`-zeroed) is still false while the buffer is
mapped. -/
theorem claim_C5_pointer_invariant_broken :
    (failedReacquireState.vt_active = true ∧ failedReacquireState.fb_mapped = false) ∧
    (initDoneState.vt_active = false ∧ initDoneState.fb_mapped = true) := by
  decide

/-- Claim C9 (code bug): three init failure paths violate the
unwind-everything contract.  When the second `calloc` fails, init returns
NULL without freeing the already-allocated context; when input creation
fails, the `bail_screen` chain closes and frees but never unmaps the
framebuffer mapping; and when screen creation fails, the result is not
checked at all and init returns a non-null context built around a null
screen. -/
theorem claim_C9_init_unwind_incomplete :
    ((twin_fbdev_init envPrivCallocFails).1 = false ∧
      (twin_fbdev_init envPrivCallocFails).2.ctxAlloc = true) ∧
    ((twin_fbdev_init envInputCreateFails).1 = false ∧
      (twin_fbdev_init envInputCreateFails).2.fbMapped = true) ∧
    ((twin_fbdev_init envScreenCreateFails).1 = true ∧
      (twin_fbdev_init envScreenCreateFails).2.screenLive = false) := by
  decide

/-- Claim C10: calling `twin_fbdev_exit` with a null context returns
immediately and issues no operation at all — no unmap, no close, no
free. -/
theorem claim_C10_null_exit_noop : twin_fbdev_exit none = [] := rfl

/-- `0xff000000 | p` decomposes into an opaque top byte above the low 24
bits of `p`, for any 32-bit pixel value. -/
theorem argb32_to_rgb888_eq (p : Nat) (hp : p < 2 ^ 32) :
    argb32_to_rgb888 p = 2 ^ 24 * 0xff + p % 2 ^ 24 := by
  have hmod : p % 2 ^ 24 < 2 ^ 24 := Nat.mod_lt _ (by norm_num)
  have h0 : (0xff000000 : Nat) = 2 ^ 24 * 0xff := by norm_num
  apply Nat.eq_of_testBit_eq
  intro j
  simp only [argb32_to_rgb888]
  rw [h0, Nat.testBit_or, Nat.testBit_mul_pow_two_add _ hmod, Nat.testBit_mul_pow_two]
  rcases Nat.lt_or_ge j 24 with hj | hj
  · have hd : decide (j ≥ 24) = false := by
      simp only [decide_eq_false_iff_not]
      omega
    rw [if_pos hj, hd, Nat.testBit_mod_two_pow]
    simp [hj]
  · have hd : decide (j ≥ 24) = true := by
      simp only [decide_eq_true_eq]
      omega
    rcases Nat.lt_or_ge j 32 with hj2 | hj2
    · have hff : Nat.testBit 0xff (j - 24) = true := by
        have h255 : (0xff : Nat) = 2 ^ 8 - 1 := by norm_num
        rw [h255, Nat.testBit_two_pow_sub_one]
        simp only [decide_eq_true_eq]
        omega
      rw [if_neg (by omega), hd, hff]
      simp
    · have hpj : Nat.testBit p j = false :=
        Nat.testBit_lt_two_pow
          (Nat.lt_of_lt_of_le hp (Nat.pow_le_pow_right (by norm_num) hj2))
      have hff : Nat.testBit 0xff (j - 24) = false := by
        have h255 : (0xff : Nat) = 2 ^ 8 - 1 := by norm_num
        rw [h255, Nat.testBit_two_pow_sub_one]
        simp only [decide_eq_false_iff_not]
        omega
      rw [if_neg (by omega), hd, hff, hpj]
      simp

/-- Claim C4: each span writer writes starting at byte offset
`sizeof(uint32_t) * left + top * line_length` from the buffer base (the C
declares `uint32_t *dest` for every depth, so the per-pixel destination
size is 4 bytes), storing exactly `right - left` words: the 16-bit writer
applies the RGB565 packing formula to each source pixel, the 24-bit writer
keeps the low 24 bits of each pixel and forces the top byte to 0xFF, and
the 32-bit writer copies the row unchanged. -/
theorem claim_C4_span_writer_exactness (left top right line_length : Nat)
    (pixels : List Nat) (hle : left ≤ right) (hlen : pixels.length = right - left)
    (hpx : ∀ p ∈ pixels, p < 2 ^ 32) :
    (twin_fbdev_put_span16 left top right line_length pixels).off
        = 4 * left + top * line_length ∧
    (twin_fbdev_put_span24 left top right line_length pixels).off
        = 4 * left + top * line_length ∧
    (twin_fbdev_put_span32 left top right line_length pixels).off
        = 4 * left + top * line_length ∧
    (twin_fbdev_put_span16 left top right line_length pixels).words
        = pixels.map argb32_to_rgb565 ∧
    (twin_fbdev_put_span24 left top right line_length pixels).words
        = pixels.map (fun q => 2 ^ 24 * 0xff + q % 2 ^ 24) ∧
    (twin_fbdev_put_span32 left top right line_length pixels).words = pixels := by
  refine ⟨rfl, rfl, rfl, ?_, ?_, ?_⟩
  · show (List.range (right - left)).map (fun i => argb32_to_rgb565 (pixels.getD i 0))
        = pixels.map argb32_to_rgb565
    rw [← hlen]
    exact range_length_map_getD _ _
  · show (List.range (right - left)).map (fun i => argb32_to_rgb888 (pixels.getD i 0))
        = pixels.map (fun q => 2 ^ 24 * 0xff + q % 2 ^ 24)
    rw [← hlen, range_length_map_getD _ _]
    exact List.map_congr_left fun a ha => argb32_to_rgb888_eq a (hpx a ha)
  · show (List.range (right - left)).map (fun i => pixels.getD i 0) = pixels
    rw [← hlen]
    have h := range_length_map_getD (fun q => q) pixels
    simpa using h

/-- Witness for claim C4 at left 1, top 2, right 3, line length 100 and the
two-pixel row `[0x12345678, 0x9abcdef0]`. -/
theorem claim_C4_span_writer_exactness_witness :
    (1 ≤ 3 ∧ ([0x12345678, 0x9abcdef0] : List Nat).length = 3 - 1 ∧
      (∀ p ∈ ([0x12345678, 0x9abcdef0] : List Nat), p < 2 ^ 32)) ∧
    ((twin_fbdev_put_span16 1 2 3 100 [0x12345678, 0x9abcdef0]).off = 4 * 1 + 2 * 100 ∧
      (twin_fbdev_put_span24 1 2 3 100 [0x12345678, 0x9abcdef0]).off = 4 * 1 + 2 * 100 ∧
      (twin_fbdev_put_span32 1 2 3 100 [0x12345678, 0x9abcdef0]).off = 4 * 1 + 2 * 100 ∧
      (twin_fbdev_put_span16 1 2 3 100 [0x12345678, 0x9abcdef0]).words
          = ([0x12345678, 0x9abcdef0] : List Nat).map argb32_to_rgb565 ∧
      (twin_fbdev_put_span24 1 2 3 100 [0x12345678, 0x9abcdef0]).words
          = ([0x12345678, 0x9abcdef0] : List Nat).map (fun q => 2 ^ 24 * 0xff + q % 2 ^ 24) ∧
      (twin_fbdev_put_span32 1 2 3 100 [0x12345678, 0x9abcdef0]).words
          = [0x12345678, 0x9abcdef0]) :=
  ⟨⟨by decide, by decide, by decide⟩,
    claim_C4_span_writer_exactness 1 2 3 100 [0x12345678, 0x9abcdef0]
      (by decide) (by decide) (by decide)⟩

/-- For `y < 2 ^ 64` and `k ≤ 64`, masking with the 64-bit complement of
`2 ^ k - 1` (the C `y &= ~(pgsize - 1)`) rounds `y` down to a multiple of
`2 ^ k`. -/
theorem and_not_mask_eq (y k : Nat) (hk : k ≤ 64) (hy : y < 2 ^ 64) :
    y &&& ((2 ^ k - 1) ^^^ (2 ^ 64 - 1)) = 2 ^ k * (y / 2 ^ k) := by
  apply Nat.eq_of_testBit_eq
  intro j
  rw [Nat.testBit_and, Nat.testBit_xor, Nat.testBit_two_pow_sub_one,
    Nat.testBit_two_pow_sub_one, Nat.testBit_mul_pow_two,
    ← Nat.shiftRight_eq_div_pow, Nat.testBit_shiftRight]
  rcases Nat.lt_or_ge j k with hj | hj
  · have h64 : j < 64 := Nat.lt_of_lt_of_le hj hk
    simp [hj, h64, (by omega : ¬ k ≤ j)]
  · rcases Nat.lt_or_ge j 64 with hj2 | hj2
    · have hkj : k + (j - k) = j := by omega
      simp [hkj, hj2, (by omega : ¬ j < k), hj]
    · have hyj : Nat.testBit y j = false :=
        Nat.testBit_lt_two_pow
          (Nat.lt_of_lt_of_le hy (Nat.pow_le_pow_right (by norm_num) hj2))
      have hkj : k + (j - k) = j := by omega
      simp [hkj, hyj, (by omega : ¬ j < k), (by omega : ¬ j < 64), hj]

/-- Claim C7: for any physical base, raw length and power-of-two page size
(no overflow in the 64-bit sum), the computed `fb_len` is a multiple of the
page size, and the mapped region — which starts at the page-aligned base
`smem_start - smem_start % pgsize` — fully contains
`[smem_start, smem_start + smem_len)`. -/
theorem claim_C7_mapping_alignment (smem_start smem_len k : Nat) (hk : k ≤ 64)
    (hov : smem_start % 2 ^ k + smem_len + (2 ^ k - 1) < 2 ^ 64) :
    2 ^ k ∣ twin_fbdev_fb_len smem_start smem_len (2 ^ k) ∧
    smem_start - smem_start % 2 ^ k ≤ smem_start ∧
    smem_start + smem_len ≤
      (smem_start - smem_start % 2 ^ k) + twin_fbdev_fb_len smem_start smem_len (2 ^ k) := by
  have hP : 0 < 2 ^ k := Nat.two_pow_pos k
  have hlen : twin_fbdev_fb_len smem_start smem_len (2 ^ k)
      = 2 ^ k * ((smem_start % 2 ^ k + smem_len + (2 ^ k - 1)) / 2 ^ k) := by
    simp only [twin_fbdev_fb_len, Nat.and_pow_two_sub_one_eq_mod]
    rw [Nat.mod_eq_of_lt hov]
    exact and_not_mask_eq _ k hk hov
  refine ⟨?_, Nat.sub_le _ _, ?_⟩
  · rw [hlen]
    exact ⟨_, rfl⟩
  · rw [hlen]
    have hdm := Nat.div_add_mod (smem_start % 2 ^ k + smem_len + (2 ^ k - 1)) (2 ^ k)
    have hmod := Nat.mod_lt (smem_start % 2 ^ k + smem_len + (2 ^ k - 1)) hP
    have hms : smem_start % 2 ^ k ≤ smem_start := Nat.mod_le _ _
    omega

/-- Witness for claim C7 at physical base 100000, raw length 777777 and
page size `2 ^ 12 = 4096`. -/
theorem claim_C7_mapping_alignment_witness :
    (12 ≤ 64 ∧ 100000 % 2 ^ 12 + 777777 + (2 ^ 12 - 1) < 2 ^ 64) ∧
    (2 ^ 12 ∣ twin_fbdev_fb_len 100000 777777 (2 ^ 12) ∧
      100000 - 100000 % 2 ^ 12 ≤ 100000 ∧
      100000 + 777777 ≤
        (100000 - 100000 % 2 ^ 12) + twin_fbdev_fb_len 100000 777777 (2 ^ 12)) :=
  ⟨⟨by decide, by decide⟩,
    claim_C7_mapping_alignment 100000 777777 12 (by decide) (by decide)⟩

/-- A tick with neither damage nor a pending switch changes nothing. -/
theorem twin_fbdev_work_quiescent (cfg : CfgResult) (s : FbState)
    (h1 : s.pending = false) (h2 : s.damaged = false) :
    twin_fbdev_work cfg s = s := by
  simp [twin_fbdev_work, h1, h2]

/-- Any number of ticks on a quiescent state changes nothing. -/
theorem tickRun_quiescent (cfg : CfgResult) (n : Nat) (s : FbState)
    (h1 : s.pending = false) (h2 : s.damaged = false) :
    tickRun cfg n s = s := by
  induction n with
  | zero => rfl
  | succ m ih =>
    show tickRun cfg m (twin_fbdev_work cfg s) = s
    rw [twin_fbdev_work_quiescent cfg s h1 h2]
    exact ih

/-- Any positive number of consecutive signals has the same effect as one:
the handler only sets the boolean flag. -/
theorem signalBurst_succ (n : Nat) (s : FbState) :
    signalBurst (n + 1) s = { s with pending := true } := by
  induction n generalizing s with
  | zero => rfl
  | succ m ih =>
    show signalBurst (m + 1) (twin_fbdev_vtswitch s) = _
    rw [ih]
    rfl

/-- A burst of `n + 1` signals followed by any ticks: the first tick
applies a single transition to Background and later ticks are no-ops. -/
theorem burstRun_succ (m : Nat) :
    burstRun (m + 1)
      = { vt_active := false, fb_mapped := false, pending := false, damaged := false,
          transitions := 1, flushes := 0, munmaps := 1 } := by
  show tickRun CfgResult.ok (m + 1) (signalBurst (m + 1) startFg) = _
  rw [signalBurst_succ]
  show tickRun CfgResult.ok m
      (twin_fbdev_work CfgResult.ok { startFg with pending := true }) = _
  rw [tickRun_quiescent _ _ _ rfl rfl]
  decide

/-- One signal followed by one tick applies exactly one transition, to the
opposite state, and leaves the flag clear (with `apply_config`
succeeding). -/
theorem altStep (s : FbState) :
    (twin_fbdev_work CfgResult.ok (twin_fbdev_vtswitch s)).vt_active = !s.vt_active ∧
    (twin_fbdev_work CfgResult.ok (twin_fbdev_vtswitch s)).transitions = s.transitions + 1 ∧
    (twin_fbdev_work CfgResult.ok (twin_fbdev_vtswitch s)).pending = false := by
  cases hv : s.vt_active <;> cases hd : s.damaged <;> cases hm : s.fb_mapped <;>
    simp [twin_fbdev_work, twin_fbdev_vtswitch, twin_fbdev_switch,
      twin_fbdev_apply_config, hv, hd, hm]

/-- Along the alternating signal-tick run the transition count equals the
round count, the state parity alternates, and each round flips the
state. -/
theorem altRun_facts (n : Nat) :
    (altRun n).transitions = n ∧ ((altRun n).vt_active = true ↔ n % 2 = 0) ∧
    (altRun (n + 1)).vt_active = !(altRun n).vt_active := by
  induction n with
  | zero =>
    refine ⟨rfl, by simp [altRun, startFg], ?_⟩
    exact (altStep (altRun 0)).1
  | succ m ih =>
    obtain ⟨h1, h2, h3⟩ := ih
    refine ⟨?_, ?_, (altStep (altRun (m + 1))).1⟩
    · show (twin_fbdev_work CfgResult.ok (twin_fbdev_vtswitch (altRun m))).transitions = m + 1
      rw [(altStep (altRun m)).2.1, h1]
    · rw [h3]
      cases hv : (altRun m).vt_active with
      | false =>
        rw [hv] at h2
        simp at h2 ⊢
        omega
      | true =>
        rw [hv] at h2
        simp at h2 ⊢
        omega

/-- A single tick applies at most one transition. -/
theorem work_transitions_le (cfg : CfgResult) (s : FbState) :
    (twin_fbdev_work cfg s).transitions ≤ s.transitions + 1 := by
  cases hd : s.damaged <;> cases hp : s.pending <;> cases hv : s.vt_active <;>
    cases hm : s.fb_mapped <;> cases cfg <;>
    simp [twin_fbdev_work, twin_fbdev_switch, twin_fbdev_apply_config, hd, hp, hv, hm]

/-- Claim C1 (counterexample): two signals delivered before any tick,
followed by two ticks, do not yield two transitions with a Foreground
final state — the boolean `vt_switch_pending` flag coalesces the burst, so
only one transition is applied and the final state is Background. -/
theorem claim_C1_counterexample_burst_of_two :
    ¬ ((burstRun 2).transitions = 2 ∧ ((burstRun 2).vt_active = true ↔ 2 % 2 = 0)) := by
  decide

/-- Claim C1 (amended): each handler invocation only sets the pending
flag, so a burst of `n ≥ 1` signals before any tick coalesces into exactly
one transition — applied by the first tick, leaving Background (Foreground
iff `n = 0`) — not `n` transitions; when signals and ticks alternate, `n`
signal-tick rounds apply exactly `n` transitions, strictly alternating
Foreground and Background, with final state Foreground iff `n` is even;
and any single tick applies at most one transition. -/
theorem claim_C1_amended_burst_coalesces (n : Nat) :
    (burstRun n).transitions = min n 1 ∧
    ((burstRun n).vt_active = true ↔ n = 0) ∧
    (altRun n).transitions = n ∧
    ((altRun n).vt_active = true ↔ n % 2 = 0) ∧
    (altRun (n + 1)).vt_active = !(altRun n).vt_active ∧
    (∀ (cfg : CfgResult) (s : FbState),
      (twin_fbdev_work cfg s).transitions ≤ s.transitions + 1) := by
  obtain ⟨ha1, ha2, ha3⟩ := altRun_facts n
  refine ⟨?_, ?_, ha1, ha2, ha3, work_transitions_le⟩
  · cases n with
    | zero => rfl
    | succ m =>
      rw [burstRun_succ]
      show (1 : Nat) = min (m + 1) 1
      omega
  · cases n with
    | zero => simp [burstRun, tickRun, signalBurst, startFg]
    | succ m =>
      rw [burstRun_succ]
      simp

/-- Claim C6 (counterexample): `twin_fbdev_exit` breaks the unmap/teardown
discipline the claim states: on a context whose buffer pointer already
holds the `MAP_FAILED` sentinel it still issues a `munmap` (the repeated
unmap is not a guarded no-op there), and a second exit call on the same
non-null context repeats the close — the second call is not a no-op. -/
theorem claim_C6_counterexample_exit_not_idempotent :
    (twin_fbdev_exit (some { vt_active := false, fb_mapped := false })).count VtOp.munmapBuf
        = 1 ∧
    ((twin_fbdev_exit (some { vt_active := true, fb_mapped := true })) ++
        twin_fbdev_exit (some { vt_active := true, fb_mapped := true })).count VtOp.closeFb
        = 2 := by
  decide

/-- Claim C6 (amended): the VT-switch deactivation path does follow the
discipline — after it the pointer holds the sentinel, it unmaps exactly
once when the buffer was mapped and not at all when it already held the
sentinel, so repeating it performs no second unmap.  `twin_fbdev_exit`,
however, only guards against a null context: on a non-null context it
always issues exactly one unconditional unmap (even when the pointer
already holds the sentinel), and a second exit call on the same context
repeats the unmap, both closes and the free. -/
theorem claim_C6_amended_switch_guards_exit_does_not :
    (∀ (cfg : CfgResult) (s : FbState),
      (twin_fbdev_switch cfg false s).fb_mapped = false ∧
      (twin_fbdev_switch cfg false s).munmaps
          = s.munmaps + (if s.fb_mapped then 1 else 0) ∧
      (twin_fbdev_switch cfg false (twin_fbdev_switch cfg false s)).munmaps
          = (twin_fbdev_switch cfg false s).munmaps) ∧
    twin_fbdev_exit none = [] ∧
    (∀ c : ExitCtx,
      (twin_fbdev_exit (some c)).count VtOp.munmapBuf = 1 ∧
      ((twin_fbdev_exit (some c)) ++ twin_fbdev_exit (some c)).count VtOp.munmapBuf = 2 ∧
      ((twin_fbdev_exit (some c)) ++ twin_fbdev_exit (some c)).count VtOp.closeVt = 2 ∧
      ((twin_fbdev_exit (some c)) ++ twin_fbdev_exit (some c)).count VtOp.closeFb = 2 ∧
      ((twin_fbdev_exit (some c)) ++ twin_fbdev_exit (some c)).count VtOp.freeCtx = 2) := by
  refine ⟨?_, rfl, ?_⟩
  · intro cfg s
    cases hm : s.fb_mapped <;> simp [twin_fbdev_switch, hm]
  · intro c
    exact ⟨rfl, rfl, rfl, rfl, rfl⟩

/-- Claim C8 (code bug): `twin_fbdev_setup_vt` saves the keyboard decoding
mode and the terminal attributes, but `twin_fbdev_exit` — independent of
the Foreground/Background state of the context — only sets the console
back to text mode; it never issues the restoring `KDSKBMODE`/`tcsetattr`
operations, so the saved keyboard mode and terminal attributes are not
restored at teardown. -/
theorem claim_C8_exit_restores_only_text_mode :
    VtOp.saveKb ∈ twin_fbdev_setup_vt_ops ∧
    VtOp.saveTio ∈ twin_fbdev_setup_vt_ops ∧
    (∀ c : ExitCtx,
      VtOp.setConsoleText ∈ twin_fbdev_exit (some c) ∧
      VtOp.restoreKb ∉ twin_fbdev_exit (some c) ∧
      VtOp.restoreTio ∉ twin_fbdev_exit (some c)) :=
  ⟨by decide, by decide, fun c =>
    ⟨by simp [twin_fbdev_exit], by simp [twin_fbdev_exit], by simp [twin_fbdev_exit]⟩⟩
